import Mathlib

/-!
Verification of the RadioRA serial-bridge library (radiora/__init__.py):
the feedback decoder (create_feedback_command and the feedback class
hierarchy) and the feedback dispatch queue (FeedbackQueue).

The Python code is embedded shallowly:
  - fallible code (code that can raise ValueError / IndexError /
    AssertionError) is modelled with Option / Except, where a result of
    none (or .error) means "an exception was raised";
  - Python str.split / str.replace / int() / indexing are modelled by
    executable helper functions mirrored from their documented behavior;
  - the concurrent FeedbackQueue is modelled by an explicit state record
    and a small-step transition relation Step; the interleavings of the
    producer (report_feedback), the observer registration and the worker
    loop (_process_queue) are the traces of Step.
-/

/-! ## Python primitive helpers -/

/-- Python whitespace characters (the set stripped by str.strip and
accepted inside int()). -/
def isPyWhitespace (c : Char) : Bool :=
  c = ' ' || c = '\t' || c = '\n' || c = '\r' || c = '\x0b' || c = '\x0c'

/-- Value of the digits of a string, accumulator style; none when a
non-digit is met. -/
def digitsVal : List Char → Nat → Option Nat
  | [], acc => some acc
  | c :: r, acc =>
      if c.isDigit then digitsVal r (acc * 10 + (c.toNat - 48)) else none

/-- none on the empty digit list (Python int of an empty string raises). -/
def parseDigits : List Char → Option Nat
  | [] => none
  | cs => digitsVal cs 0

/-- Python built-in int(s): strips surrounding whitespace, allows one
sign, then base-10 digits; anything else raises ValueError (= none). -/
def pyInt (s : String) : Option Int :=
  let t := ((s.data.dropWhile isPyWhitespace).reverse.dropWhile isPyWhitespace).reverse
  match t with
  | [] => none
  | c :: rest =>
      if c = '-' then (parseDigits rest).map (fun n => -(n : Int))
      else if c = '+' then (parseDigits rest).map (fun n => (n : Int))
      else (parseDigits (c :: rest)).map (fun n => (n : Int))

/-- Python raw_command.replace(" ", ""): delete every space character
(only the space character U+0020, no other whitespace). -/
def removeSpaces (s : String) : String :=
  String.mk (s.data.filter (fun c => c ≠ ' '))

/-- Helper for pySplit: accumulate the current field until a comma. -/
def pySplitAux : List Char → List Char → List String
  | [], acc => [String.mk acc.reverse]
  | c :: rest, acc =>
      if c = ',' then String.mk acc.reverse :: pySplitAux rest []
      else pySplitAux rest (c :: acc)

/-- Python s.split(','): split at every comma, never collapsing; the
empty string yields [""]. -/
def pySplit (s : String) : List String :=
  pySplitAux s.data []

/-! ## Feedback variant model

The Python classes FeedbackCommand, UnknownFeedback, Prompt,
_SystemFeedback, LocalZoneChange, _MasterControlFeedback,
_MasterControlButtonFeedback, MasterControlButtonPress,
RaiseButtonPress, RaiseButtonRelease, LowerButtonPress,
LowerButtonRelease, CordlessWakingUp, CordlessGoingToSleep.

A constructed object always carries the base fields (raw_command,
parsed_args, command) plus the class-specific fields, which we group in
Variant.  Abstract intermediate classes are never instantiated directly;
they appear as Tag values because the observer dictionary may be keyed
by any class object. -/

def STATE_ON : String := "ON"
def STATE_OFF : String := "OFF"
def STATE_TOGGLE : String := "TOG"
def STATE_CHANGE : String := "CHG"

/-- The class-specific fields of each concrete feedback class. -/
inductive Variant where
  | UnknownFeedback : Variant
  | Prompt : Variant
  | LocalZoneChange (system : Option Int) (zone_number : Int) (state : String) : Variant
  | MasterControlButtonPress (system : Option Int) (master_control_number : Int)
      (button_number : Int) (state : String) : Variant
  | RaiseButtonPress (system : Option Int) (master_control_number : Int)
      (button_number : Int) : Variant
  | RaiseButtonRelease (system : Option Int) (master_control_number : Int)
      (button_number : Int) : Variant
  | LowerButtonPress (system : Option Int) (master_control_number : Int)
      (button_number : Int) : Variant
  | LowerButtonRelease (system : Option Int) (master_control_number : Int)
      (button_number : Int) : Variant
  | CordlessWakingUp (system : Option Int) (master_control_number : Int) : Variant
  | CordlessGoingToSleep (system : Option Int) (master_control_number : Int) : Variant
  deriving DecidableEq, Repr

/-- A decoded feedback object: the base fields set by
FeedbackCommand.__init__ plus the class-specific fields. -/
structure FeedbackCommand where
  raw_command : String
  parsed_args : List String
  command : String
  variant : Variant
  deriving DecidableEq, Repr

/-- FeedbackCommand.__init__: stores raw_command and parsed_args and sets
command = parsed_args[0] if len(parsed_args) > 0 else ''. -/
def FeedbackCommand.init (raw_command : String) (parsed_args : List String)
    (v : Variant) : FeedbackCommand :=
  { raw_command := raw_command, parsed_args := parsed_args,
    command := parsed_args.headD "", variant := v }

/-! ## Decoding the class-specific fields

The following functions are the bodies of the subclass __init__ methods,
acting on parsed_args.  A result of none means the __init__ raised
(AssertionError, IndexError or ValueError); the raw_command argument is
only stored, never inspected, so it does not appear here. -/

/-- The system-parsing part of _SystemFeedback.__init__:
if len(parsed_args) > system_arg_index:
    assert parsed_args[system_arg_index][0] == 'S'
    self.system = int(parsed_args[system_arg_index][1])
else:
    self.system = None
Outer none = an exception was raised; some s = system attribute set to s
(s = none is Python None). -/
def systemFromArgs (parsed_args : List String) (system_arg_index : Nat) :
    Option (Option Int) :=
  if system_arg_index < parsed_args.length then
    match (parsed_args.getD system_arg_index "").data with
    | [] => none
    | c0 :: rest =>
        if c0 = 'S' then
          match rest with
          | [] => none
          | c1 :: _ => (pyInt (String.mk [c1])).map (fun v => some v)
        else none
  else some none

/-- Prompt.__init__ adds nothing beyond the base class. -/
def Prompt.core (_parsed_args : List String) : Option Variant :=
  some Variant.Prompt

/-- LocalZoneChange.__init__ : _SystemFeedback.__init__(..., 3), then
zone_number = int(parsed_args[1]); state = parsed_args[2];
assert state in (ON, OFF, CHG). -/
def LocalZoneChange.core (parsed_args : List String) : Option Variant := do
  let system ← systemFromArgs parsed_args 3
  let zstr ← parsed_args.get? 1
  let zone_number ← pyInt zstr
  let state ← parsed_args.get? 2
  if state = STATE_ON ∨ state = STATE_OFF ∨ state = STATE_CHANGE then
    pure (Variant.LocalZoneChange system zone_number state)
  else none

/-- _MasterControlFeedback.__init__ : _SystemFeedback.__init__ at the
given index, then master_control_number = int(parsed_args[1]). -/
def MasterControlFeedback.core (parsed_args : List String)
    (system_arg_index : Nat) : Option (Option Int × Int) := do
  let system ← systemFromArgs parsed_args system_arg_index
  let s1 ← parsed_args.get? 1
  let master_control_number ← pyInt s1
  pure (system, master_control_number)

/-- _MasterControlButtonFeedback.__init__ : the previous, then
button_number = int(parsed_args[2]). -/
def MasterControlButtonFeedback.core (parsed_args : List String)
    (system_arg_index : Nat) : Option (Option Int × Int × Int) := do
  let sm ← MasterControlFeedback.core parsed_args system_arg_index
  let s2 ← parsed_args.get? 2
  let button_number ← pyInt s2
  pure (sm.1, sm.2, button_number)

/-- MasterControlButtonPress.__init__ : button feedback with system at
index 4, then state = parsed_args[3]; assert state in (ON, OFF). -/
def MasterControlButtonPress.core (parsed_args : List String) : Option Variant := do
  let smb ← MasterControlButtonFeedback.core parsed_args 4
  let state ← parsed_args.get? 3
  if state = STATE_ON ∨ state = STATE_OFF then
    pure (Variant.MasterControlButtonPress smb.1 smb.2.1 smb.2.2 state)
  else none

def RaiseButtonPress.core (parsed_args : List String) : Option Variant :=
  (MasterControlButtonFeedback.core parsed_args 3).map
    (fun smb => Variant.RaiseButtonPress smb.1 smb.2.1 smb.2.2)

def RaiseButtonRelease.core (parsed_args : List String) : Option Variant :=
  (MasterControlButtonFeedback.core parsed_args 3).map
    (fun smb => Variant.RaiseButtonRelease smb.1 smb.2.1 smb.2.2)

def LowerButtonPress.core (parsed_args : List String) : Option Variant :=
  (MasterControlButtonFeedback.core parsed_args 3).map
    (fun smb => Variant.LowerButtonPress smb.1 smb.2.1 smb.2.2)

def LowerButtonRelease.core (parsed_args : List String) : Option Variant :=
  (MasterControlButtonFeedback.core parsed_args 3).map
    (fun smb => Variant.LowerButtonRelease smb.1 smb.2.1 smb.2.2)

def CordlessWakingUp.core (parsed_args : List String) : Option Variant :=
  (MasterControlFeedback.core parsed_args 2).map
    (fun sm => Variant.CordlessWakingUp sm.1 sm.2)

def CordlessGoingToSleep.core (parsed_args : List String) : Option Variant :=
  (MasterControlFeedback.core parsed_args 2).map
    (fun sm => Variant.CordlessGoingToSleep sm.1 sm.2)

/-- One entry of the decoder table: the class attributes COMMAND and
REQUIRED_PARAMS plus the class-specific part of its constructor. -/
structure FeedbackClass where
  COMMAND : String
  REQUIRED_PARAMS : Nat
  core : List String → Option Variant

/-- The FEEDBACK_CLASSES tuple, in source order, with each class's
COMMAND and (possibly inherited) REQUIRED_PARAMS attribute. -/
def FEEDBACK_CLASSES : List FeedbackClass :=
  [ ⟨"!", 0, Prompt.core⟩,
    ⟨"LZC", 2, LocalZoneChange.core⟩,
    ⟨"MBP", 3, MasterControlButtonPress.core⟩,
    ⟨"RBP", 2, RaiseButtonPress.core⟩,
    ⟨"RBR", 2, RaiseButtonRelease.core⟩,
    ⟨"LBP", 2, LowerButtonPress.core⟩,
    ⟨"LBR", 2, LowerButtonRelease.core⟩,
    ⟨"CWU", 1, CordlessWakingUp.core⟩,
    ⟨"CGS", 1, CordlessGoingToSleep.core⟩ ]

/-- The table scan inside create_feedback_command, applied to the parsed
fields: find the first class with matching COMMAND and
REQUIRED_PARAMS <= len(parsed_args) and run its constructor; otherwise
produce UnknownFeedback.  none = the chosen constructor raised. -/
def decodeCore (parsed_args : List String) : Option Variant :=
  if 0 < parsed_args.length then
    match FEEDBACK_CLASSES.find?
        (fun fc => fc.COMMAND == parsed_args.headD "" &&
                   decide (fc.REQUIRED_PARAMS ≤ parsed_args.length)) with
    | some fc => fc.core parsed_args
    | none => some Variant.UnknownFeedback
  else some Variant.UnknownFeedback

/-- create_feedback_command(raw_command): remove spaces, split at ',',
scan FEEDBACK_CLASSES, construct.  none = an exception escaped. -/
def create_feedback_command (raw_command : String) : Option FeedbackCommand :=
  let parsed_args := pySplit (removeSpaces raw_command)
  match decodeCore parsed_args with
  | some v => some (FeedbackCommand.init raw_command parsed_args v)
  | none => none

/-! ## The system_number property

_SystemFeedback.system_number is
    return 1 if (not hasattr(self, 'system')) else self.system
Both branches of _SystemFeedback.__init__ assign self.system, so on
every constructed instance hasattr(self, 'system') is True. -/

/-- hasattr(self, 'system') on a constructed _SystemFeedback instance:
always True, because both branches of __init__ assign the attribute. -/
def hasattr_system : Bool := true

/-- The system attribute of a feedback object: none when the class has
no such attribute (UnknownFeedback, Prompt), some s otherwise, where
s = none is Python None. -/
def Variant.system? : Variant → Option (Option Int)
  | Variant.UnknownFeedback => none
  | Variant.Prompt => none
  | Variant.LocalZoneChange s _ _ => some s
  | Variant.MasterControlButtonPress s _ _ _ => some s
  | Variant.RaiseButtonPress s _ _ => some s
  | Variant.RaiseButtonRelease s _ _ => some s
  | Variant.LowerButtonPress s _ _ => some s
  | Variant.LowerButtonRelease s _ _ => some s
  | Variant.CordlessWakingUp s _ => some s
  | Variant.CordlessGoingToSleep s _ => some s

/-- The system_number property.  Outer none = the object has no system
attribute at all (accessing the property would not even be defined);
the inner value is what the Python property returns (none = None). -/
def FeedbackCommand.system_number (fb : FeedbackCommand) : Option (Option Int) :=
  fb.variant.system?.map (fun s => if ¬ hasattr_system then some 1 else s)

/-! ## Class tags and the Python class hierarchy

The observer dictionary of FeedbackQueue is keyed by class objects, and
dispatch compares feedback.__class__ against those keys.  Tag enumerates
every class of the hierarchy (including the abstract ones, which can
legally be used as dictionary keys). -/

inductive Tag where
  | FeedbackCommand
  | UnknownFeedback
  | Prompt
  | SystemFeedback
  | LocalZoneChange
  | MasterControlFeedback
  | MasterControlButtonFeedback
  | MasterControlButtonPress
  | RaiseButtonPress
  | RaiseButtonRelease
  | LowerButtonPress
  | LowerButtonRelease
  | CordlessWakingUp
  | CordlessGoingToSleep
  deriving DecidableEq, Repr

/-- feedback.__class__ : the exact concrete class of a feedback object. -/
def Variant.classOf : Variant → Tag
  | Variant.UnknownFeedback => Tag.UnknownFeedback
  | Variant.Prompt => Tag.Prompt
  | Variant.LocalZoneChange _ _ _ => Tag.LocalZoneChange
  | Variant.MasterControlButtonPress _ _ _ _ => Tag.MasterControlButtonPress
  | Variant.RaiseButtonPress _ _ _ => Tag.RaiseButtonPress
  | Variant.RaiseButtonRelease _ _ _ => Tag.RaiseButtonRelease
  | Variant.LowerButtonPress _ _ _ => Tag.LowerButtonPress
  | Variant.LowerButtonRelease _ _ _ => Tag.LowerButtonRelease
  | Variant.CordlessWakingUp _ _ => Tag.CordlessWakingUp
  | Variant.CordlessGoingToSleep _ _ => Tag.CordlessGoingToSleep

def FeedbackCommand.tag (fb : FeedbackCommand) : Tag :=
  fb.variant.classOf

/-- The proper superclasses of each class, from the Python class
declarations (names _SystemFeedback etc. carry a leading underscore in
the source). -/
def properSuperclasses : Tag → List Tag
  | Tag.FeedbackCommand => []
  | Tag.UnknownFeedback => [Tag.FeedbackCommand]
  | Tag.Prompt => [Tag.FeedbackCommand]
  | Tag.SystemFeedback => [Tag.FeedbackCommand]
  | Tag.LocalZoneChange => [Tag.SystemFeedback, Tag.FeedbackCommand]
  | Tag.MasterControlFeedback => [Tag.SystemFeedback, Tag.FeedbackCommand]
  | Tag.MasterControlButtonFeedback =>
      [Tag.MasterControlFeedback, Tag.SystemFeedback, Tag.FeedbackCommand]
  | Tag.MasterControlButtonPress =>
      [Tag.MasterControlButtonFeedback, Tag.MasterControlFeedback,
       Tag.SystemFeedback, Tag.FeedbackCommand]
  | Tag.RaiseButtonPress =>
      [Tag.MasterControlButtonFeedback, Tag.MasterControlFeedback,
       Tag.SystemFeedback, Tag.FeedbackCommand]
  | Tag.RaiseButtonRelease =>
      [Tag.MasterControlButtonFeedback, Tag.MasterControlFeedback,
       Tag.SystemFeedback, Tag.FeedbackCommand]
  | Tag.LowerButtonPress =>
      [Tag.MasterControlButtonFeedback, Tag.MasterControlFeedback,
       Tag.SystemFeedback, Tag.FeedbackCommand]
  | Tag.LowerButtonRelease =>
      [Tag.MasterControlButtonFeedback, Tag.MasterControlFeedback,
       Tag.SystemFeedback, Tag.FeedbackCommand]
  | Tag.CordlessWakingUp =>
      [Tag.MasterControlFeedback, Tag.SystemFeedback, Tag.FeedbackCommand]
  | Tag.CordlessGoingToSleep =>
      [Tag.MasterControlFeedback, Tag.SystemFeedback, Tag.FeedbackCommand]

/-- Python issubclass (reflexive). -/
def isSubclass (a b : Tag) : Bool :=
  a = b || (properSuperclasses a).contains b

/-! ## FeedbackQueue

State of a FeedbackQueue object.  The threading.Event _check_queue is a
boolean; the worker thread itself is modelled by the Step relation
below.  Observer callbacks are identified by numbers (their behavior is
irrelevant to the queue's bookkeeping). -/

/-- The _feedback_functions dictionary: most recent binding first;
lookup takes the first match, so insertion shadows (dictionary
assignment semantics, last registration wins). -/
abbrev ObsTable : Type := List (Tag × Nat)

def obsLookup (t : Tag) (m : ObsTable) : Option Nat :=
  (List.find? (fun p => p.fst == t) m).map Prod.snd

structure QueueState where
  queue : List FeedbackCommand
  continue_running : Bool
  check_queue : Bool
  feedback_functions : ObsTable

/-- FeedbackQueue.__init__ : empty queue, running, event cleared, no
observers. -/
def FeedbackQueue.initState : QueueState :=
  { queue := [], continue_running := true, check_queue := false,
    feedback_functions := [] }

/-- FeedbackQueue.report_feedback : appends and sets the event.  The
method has no check of _continue_running and no failure path, so it
always returns ok. -/
def FeedbackQueue.report_feedback (s : QueueState) (feedback : FeedbackCommand) :
    Except String QueueState :=
  Except.ok { s with queue := s.queue ++ [feedback], check_queue := true }

/-- FeedbackQueue.set_feedback_observer on the dictionary: None maps to
the FeedbackCommand base class; the assert issubclass(feedback_class,
FeedbackCommand) always holds for a Tag (every Tag is a class of the
hierarchy). -/
def set_feedback_observer (feedback_class : Option Tag) (feedback_function : Nat)
    (m : ObsTable) : ObsTable :=
  let key := match feedback_class with
    | none => Tag.FeedbackCommand
    | some c => c
  (key, feedback_function) :: m

/-- The callback selection inside _process_queue:
if feedback.__class__ in dict: take it; elif FeedbackCommand in dict:
take the wildcard; else nothing. -/
def lookupFeedbackFunction (t : Tag) (m : ObsTable) : Option Nat :=
  match obsLookup t m with
  | some f => some f
  | none => obsLookup Tag.FeedbackCommand m

/-- FeedbackQueue.stop : assert _continue_running (an already-stopped
queue raises AssertionError), then clear the flag, discard the queue and
set the event so the worker wakes and exits. -/
def FeedbackQueue.stop (s : QueueState) : Except String QueueState :=
  if s.continue_running then
    Except.ok { s with continue_running := false, queue := [], check_queue := true }
  else
    Except.error "AssertionError"

/-! ## The concurrent behavior of FeedbackQueue

A Sys is the queue state plus two histories: log (every feedback ever
passed to report_feedback, in call order) and trace (every observer
invocation made by the worker, in invocation order).  Step is one
atomic action of either the producer thread, a client thread, or the
worker thread; dispatch steps are only enabled while _continue_running
holds, because _process_queue re-checks the flag under the lock before
every pop. -/

structure Sys where
  st : QueueState
  log : List FeedbackCommand
  trace : List (Nat × FeedbackCommand)

inductive Step : Sys → Sys → Prop where
  | report (s : Sys) (i : FeedbackCommand) :
      Step s ⟨{ s.st with queue := s.st.queue ++ [i], check_queue := true },
              s.log ++ [i], s.trace⟩
  | set_observer (s : Sys) (c : Option Tag) (f : Nat) :
      Step s ⟨{ s.st with
                feedback_functions := set_feedback_observer c f s.st.feedback_functions },
              s.log, s.trace⟩
  | dispatch_hit (s : Sys) (i : FeedbackCommand) (rest : List FeedbackCommand) (f : Nat) :
      s.st.continue_running = true →
      s.st.queue = i :: rest →
      lookupFeedbackFunction i.tag s.st.feedback_functions = some f →
      Step s ⟨{ s.st with queue := rest }, s.log, s.trace ++ [(f, i)]⟩
  | dispatch_miss (s : Sys) (i : FeedbackCommand) (rest : List FeedbackCommand) :
      s.st.continue_running = true →
      s.st.queue = i :: rest →
      lookupFeedbackFunction i.tag s.st.feedback_functions = none →
      Step s ⟨{ s.st with queue := rest }, s.log, s.trace⟩
  | clear_check (s : Sys) :
      Step s ⟨{ s.st with check_queue := false }, s.log, s.trace⟩
  | stop (s : Sys) :
      s.st.continue_running = true →
      Step s ⟨{ s.st with continue_running := false, queue := [], check_queue := true },
              s.log, s.trace⟩

def initSys : Sys :=
  ⟨FeedbackQueue.initState, [], []⟩

/-- Executions of the queue: reflexive-transitive closure of Step. -/
def Reaches (a b : Sys) : Prop :=
  Relation.ReflTransGen Step a b

/-! ## The controller facade -/

/-- RadioRA._send_command : the Python body is
    if system:
        assert system in (1, 2)
        command += ",S{0}".format(system)
    ...
    self._protocol.write_line(command)
Note if system: is False both for None and for 0.  The result is the
line written to the transport; none = the assert raised and nothing was
written. -/
def RadioRA.send_command (command : String) (system : Option Int) : Option String :=
  match system with
  | none => some command
  | some sysv =>
      if sysv = 0 then some command
      else if sysv = 1 ∨ sysv = 2 then some (command ++ ",S" ++ toString sysv)
      else none

/-! ## Queue invariants -/

/-- Invariant of every execution: the enqueue log splits into the items
already removed from the buffer (in removal order) followed by the
buffer itself, and the dispatched items form an order-preserving
subsequence of the removed ones. -/
theorem reaches_log_decomp {s : Sys} (h : Reaches initSys s) :
    ∃ done : List FeedbackCommand,
      s.log = done ++ s.st.queue ∧ List.Sublist (s.trace.map Prod.snd) done := by
  induction h with
  | refl => exact ⟨[], rfl, List.nil_sublist []⟩
  | tail _ hstep ih =>
    obtain ⟨done, hlog, htr⟩ := ih
    cases hstep with
    | report i =>
        exact ⟨done, by simp [hlog], htr⟩
    | set_observer c f =>
        exact ⟨done, hlog, htr⟩
    | dispatch_hit i rest f hrun hq hl =>
        refine ⟨done ++ [i], ?_, ?_⟩
        · simpa [hq, List.append_assoc] using hlog
        · simpa using List.Sublist.append htr (List.Sublist.refl [i])
    | dispatch_miss i rest hrun hq hl =>
        refine ⟨done ++ [i], ?_, ?_⟩
        · simpa [hq, List.append_assoc] using hlog
        · exact List.Sublist.trans htr (List.sublist_append_left done [i])
    | clear_check =>
        exact ⟨done, hlog, htr⟩
    | stop hrun =>
        rename_i b ha
        refine ⟨done ++ b.st.queue, ?_, ?_⟩
        · simpa using hlog
        · exact List.Sublist.trans htr (List.sublist_append_left done b.st.queue)

/-- Once _continue_running is cleared it stays cleared (no action sets
it back, and stop itself asserts it is still set), and no observer
invocation ever happens again: the dispatch steps all require the flag. -/
theorem trace_frozen {s s' : Sys} (h : Relation.ReflTransGen Step s s')
    (hrun : s.st.continue_running = false) :
    s'.trace = s.trace ∧ s'.st.continue_running = false := by
  induction h with
  | refl => exact ⟨rfl, hrun⟩
  | tail _ hstep ih =>
    obtain ⟨htr, hrn⟩ := ih
    cases hstep with
    | report i => exact ⟨htr, hrn⟩
    | set_observer c f => exact ⟨htr, hrn⟩
    | dispatch_hit i rest f hr hq hl => rw [hrn] at hr; cases hr
    | dispatch_miss i rest hr hq hl => rw [hrn] at hr; cases hr
    | clear_check => exact ⟨htr, hrn⟩
    | stop hr => rw [hrn] at hr; cases hr

/-! ## Auxiliary definitions and lemmas for the claims -/

/-- Modelled from the spec's words, for comparison with removeSpaces:
removal of ALL whitespace characters from a raw line (what the spec
asserts the decoder does before splitting). -/
def specStripWhitespace (s : String) : String :=
  String.mk (s.data.filter (fun c => ¬ isPyWhitespace c))

/-- A feedback object with its stored raw_command blanked, leaving the
class and every parsed or declared field. -/
def eraseRaw (fb : FeedbackCommand) : FeedbackCommand :=
  { fb with raw_command := "" }

/-- Sample decoded Prompt object. -/
def fbPromptEx : FeedbackCommand := ⟨"!", ["!"], "!", Variant.Prompt⟩

/-- Sample decoded LocalZoneChange object (no system field). -/
def fbLzcEx : FeedbackCommand :=
  ⟨"LZC,7,ON", ["LZC", "7", "ON"], "LZC", Variant.LocalZoneChange none 7 "ON"⟩

/-- A digit character is not a Python whitespace character. -/
theorem isDigit_not_pyWhitespace {c : Char} (h : c.isDigit = true) :
    isPyWhitespace c = false := by
  have h1 : c ≠ ' ' := by rintro rfl; exact absurd h (by decide)
  have h2 : c ≠ '\t' := by rintro rfl; exact absurd h (by decide)
  have h3 : c ≠ '\n' := by rintro rfl; exact absurd h (by decide)
  have h4 : c ≠ '\r' := by rintro rfl; exact absurd h (by decide)
  have h5 : c ≠ '\x0b' := by rintro rfl; exact absurd h (by decide)
  have h6 : c ≠ '\x0c' := by rintro rfl; exact absurd h (by decide)
  simp [isPyWhitespace, h1, h2, h3, h4, h5, h6]

/-- Python int() of a single digit character yields its value. -/
theorem pyInt_single_digit {c : Char} (h : c.isDigit = true) :
    pyInt (String.mk [c]) = some ((c.toNat - 48 : Nat) : Int) := by
  have hm : c ≠ '-' := by rintro rfl; exact absurd h (by decide)
  have hp : c ≠ '+' := by rintro rfl; exact absurd h (by decide)
  simp [pyInt, List.dropWhile, isDigit_not_pyWhitespace h, hm, hp,
        parseDigits, digitsVal, h]

/-- Prepending an observer entry under a different key does not change a
lookup (dictionary lookup takes the most recent binding of the key). -/
theorem obsLookup_cons_ne {t k : Tag} (h : k ≠ t) (f : Nat) (m : ObsTable) :
    obsLookup t ((k, f) :: m) = obsLookup t m := by
  simp [obsLookup, List.find?_cons, h]

/-- Python int() of a single non-digit character raises ValueError
(including the sign characters alone and whitespace characters, which
int() strips down to the empty string). -/
theorem pyInt_single_nondigit {c : Char} (h : c.isDigit = false) :
    pyInt (String.mk [c]) = none := by
  by_cases hw : isPyWhitespace c = true
  · simp [pyInt, List.dropWhile, hw]
  · have hw' : isPyWhitespace c = false := by simpa using hw
    by_cases hm : c = '-'
    · subst hm; decide
    · by_cases hp : c = '+'
      · subst hp; decide
      · simp [pyInt, List.dropWhile, hw', hm, hp, parseDigits, digitsVal, h]

/-- The table scan of create_feedback_command selects exactly the entry
whose COMMAND equals the first parsed field, provided its
REQUIRED_PARAMS bound is met: command codes are pairwise distinct, so
the first match is that entry and decodeCore runs its constructor. -/
theorem decodeCore_of_head (args : List String) (fc : FeedbackClass)
    (hmem : fc ∈ FEEDBACK_CLASSES)
    (hcmd : args.headD "" = fc.COMMAND)
    (hlen : fc.REQUIRED_PARAMS ≤ args.length) :
    decodeCore args = fc.core args := by
  simp only [FEEDBACK_CLASSES, List.mem_cons, List.not_mem_nil, or_false] at hmem
  cases args with
  | nil =>
      rcases hmem with rfl | rfl | rfl | rfl | rfl | rfl | rfl | rfl | rfl <;>
        exact absurd hcmd (by decide)
  | cons a l =>
      have hcmd' : a = fc.COMMAND := by simpa using hcmd
      subst hcmd'
      rcases hmem with rfl | rfl | rfl | rfl | rfl | rfl | rfl | rfl | rfl
      all_goals
        simp only [List.length_cons] at hlen
        unfold decodeCore
        rw [if_pos (by simp)]
        simp [FEEDBACK_CLASSES, List.find?_cons]
        try rw [decide_eq_true (by omega)]

/-- Evaluation of _MasterControlButtonFeedback.__init__ on a parsed line
with a numeric master-control field, a numeric button field and a
well-formed optional system field. -/
theorem mcbf_core_eval (idx : Nat) (cmd m b : String) (rest : List String)
    (mv bv : Int) (sys : Option Int)
    (hm : pyInt m = some mv) (hb : pyInt b = some bv)
    (hsys : systemFromArgs (cmd :: m :: b :: rest) idx = some sys) :
    MasterControlButtonFeedback.core (cmd :: m :: b :: rest) idx =
      some (sys, mv, bv) := by
  simp [MasterControlButtonFeedback.core, MasterControlFeedback.core,
        hsys, hm, hb, List.get?]

/-- Evaluation of _MasterControlFeedback.__init__ on a parsed line with
a numeric master-control field and a well-formed optional system
field. -/
theorem mcf_core_eval (idx : Nat) (cmd m : String) (rest : List String)
    (mv : Int) (sys : Option Int)
    (hm : pyInt m = some mv)
    (hsys : systemFromArgs (cmd :: m :: rest) idx = some sys) :
    MasterControlFeedback.core (cmd :: m :: rest) idx = some (sys, mv) := by
  simp [MasterControlFeedback.core, hsys, hm, List.get?]

/-! ## Claims -/

/-- Claim C1.  Evaluation of the decoder at its fall-through path and at
the failing input.  For a command code with no table entry the decoder
does return UnknownFeedback carrying the raw line (first two conjuncts,
including a matching code whose table REQUIRED_PARAMS is not met).  But
the table check REQUIRED_PARAMS <= len(parsed_args) counts the command
code itself among the fields while REQUIRED_PARAMS counts only the
parameters after it, so the line "LZC,7" passes the check (2 <= 2) and
LocalZoneChange.__init__ then raises IndexError reading parsed_args[2]:
decode raises instead of returning Unknown (third conjunct, none = an
exception escaped create_feedback_command). -/
theorem unknown_fallback_and_required_params_bug :
    create_feedback_command "XYZ,1" =
      some ⟨"XYZ,1", ["XYZ", "1"], "XYZ", Variant.UnknownFeedback⟩
    ∧ create_feedback_command "LZC" =
      some ⟨"LZC", ["LZC"], "LZC", Variant.UnknownFeedback⟩
    ∧ create_feedback_command "LZC,7" = none := by
  refine ⟨by decide, by decide, by decide⟩

/-- Claim C2.  The system_number property reads
return 1 if (not hasattr(self, 'system')) else self.system, and both
branches of _SystemFeedback.__init__ assign self.system, so the property
returns self.system itself: a LocalZoneChange decoded without a trailing
system field exposes system_number = None (inner none), not 1 as the
property's own docstring and the claim state; with S2 it exposes 2. -/
theorem system_number_returns_python_none :
    (create_feedback_command "LZC,7,ON").map FeedbackCommand.system_number =
      some (some none)
    ∧ (create_feedback_command "LZC,7,ON,S2").map FeedbackCommand.system_number =
      some (some (some 2)) := by
  refine ⟨by decide, by decide⟩

/-- Claim C3 counterexample.  Starting from a freshly constructed queue,
stop() succeeds and yields the stopped state; a subsequent
report_feedback on that stopped state is NOT rejected: it returns ok and
appends the item, refuting the claim that every enqueue after stop()
signals a queue-stopped condition. -/
theorem report_after_stop_not_rejected_cex :
    FeedbackQueue.stop FeedbackQueue.initState =
      Except.ok ⟨[], false, true, []⟩
    ∧ FeedbackQueue.report_feedback ⟨[], false, true, []⟩ fbPromptEx =
      Except.ok ⟨[fbPromptEx], false, true, []⟩ := ⟨rfl, rfl⟩

/-- Claim C3 (amended).  report_feedback has no check of
_continue_running and no failure path: called on a stopped queue it
still succeeds, silently appending the item to the buffer and setting
the wake event; no queue-stopped condition is signaled to the caller. -/
theorem report_after_stop_succeeds (s : QueueState) (fb : FeedbackCommand)
    (_h : s.continue_running = false) :
    FeedbackQueue.report_feedback s fb =
      Except.ok { s with queue := s.queue ++ [fb], check_queue := true } := rfl

/-- Witness for the amended C3 theorem at a concrete stopped state. -/
theorem report_after_stop_succeeds_witness :
    (⟨[], false, true, []⟩ : QueueState).continue_running = false
    ∧ FeedbackQueue.report_feedback ⟨[], false, true, []⟩ fbPromptEx =
      Except.ok ⟨[fbPromptEx], false, true, []⟩ :=
  ⟨rfl, report_after_stop_succeeds ⟨[], false, true, []⟩ fbPromptEx rfl⟩

/-- Claim C4.  For every well-formed line whose command code matches a
table entry with a sufficient field count, decode returns exactly the
variant mapped to that code with every declared field populated from the
line's tokens.  One general conjunct per table entry (any numeric
fields, any enumerated state token, any well-formed optional system
field, extra trailing fields ignored), plus the two concrete lines named
by the spec. -/
theorem decode_well_formed_lines :
    (∀ (raw : String) (rest : List String),
      pySplit (removeSpaces raw) = "!" :: rest →
      create_feedback_command raw =
        some (FeedbackCommand.init raw ("!" :: rest) Variant.Prompt))
    ∧ (∀ (raw z st : String) (rest : List String) (zv : Int) (sys : Option Int),
      pySplit (removeSpaces raw) = "LZC" :: z :: st :: rest →
      pyInt z = some zv →
      (st = STATE_ON ∨ st = STATE_OFF ∨ st = STATE_CHANGE) →
      systemFromArgs ("LZC" :: z :: st :: rest) 3 = some sys →
      create_feedback_command raw =
        some (FeedbackCommand.init raw ("LZC" :: z :: st :: rest)
          (Variant.LocalZoneChange sys zv st)))
    ∧ (∀ (raw m b st : String) (rest : List String) (mv bv : Int) (sys : Option Int),
      pySplit (removeSpaces raw) = "MBP" :: m :: b :: st :: rest →
      pyInt m = some mv →
      pyInt b = some bv →
      (st = STATE_ON ∨ st = STATE_OFF) →
      systemFromArgs ("MBP" :: m :: b :: st :: rest) 4 = some sys →
      create_feedback_command raw =
        some (FeedbackCommand.init raw ("MBP" :: m :: b :: st :: rest)
          (Variant.MasterControlButtonPress sys mv bv st)))
    ∧ (∀ (raw m b : String) (rest : List String) (mv bv : Int) (sys : Option Int),
      pySplit (removeSpaces raw) = "RBP" :: m :: b :: rest →
      pyInt m = some mv →
      pyInt b = some bv →
      systemFromArgs ("RBP" :: m :: b :: rest) 3 = some sys →
      create_feedback_command raw =
        some (FeedbackCommand.init raw ("RBP" :: m :: b :: rest)
          (Variant.RaiseButtonPress sys mv bv)))
    ∧ (∀ (raw m b : String) (rest : List String) (mv bv : Int) (sys : Option Int),
      pySplit (removeSpaces raw) = "RBR" :: m :: b :: rest →
      pyInt m = some mv →
      pyInt b = some bv →
      systemFromArgs ("RBR" :: m :: b :: rest) 3 = some sys →
      create_feedback_command raw =
        some (FeedbackCommand.init raw ("RBR" :: m :: b :: rest)
          (Variant.RaiseButtonRelease sys mv bv)))
    ∧ (∀ (raw m b : String) (rest : List String) (mv bv : Int) (sys : Option Int),
      pySplit (removeSpaces raw) = "LBP" :: m :: b :: rest →
      pyInt m = some mv →
      pyInt b = some bv →
      systemFromArgs ("LBP" :: m :: b :: rest) 3 = some sys →
      create_feedback_command raw =
        some (FeedbackCommand.init raw ("LBP" :: m :: b :: rest)
          (Variant.LowerButtonPress sys mv bv)))
    ∧ (∀ (raw m b : String) (rest : List String) (mv bv : Int) (sys : Option Int),
      pySplit (removeSpaces raw) = "LBR" :: m :: b :: rest →
      pyInt m = some mv →
      pyInt b = some bv →
      systemFromArgs ("LBR" :: m :: b :: rest) 3 = some sys →
      create_feedback_command raw =
        some (FeedbackCommand.init raw ("LBR" :: m :: b :: rest)
          (Variant.LowerButtonRelease sys mv bv)))
    ∧ (∀ (raw m : String) (rest : List String) (mv : Int) (sys : Option Int),
      pySplit (removeSpaces raw) = "CWU" :: m :: rest →
      pyInt m = some mv →
      systemFromArgs ("CWU" :: m :: rest) 2 = some sys →
      create_feedback_command raw =
        some (FeedbackCommand.init raw ("CWU" :: m :: rest)
          (Variant.CordlessWakingUp sys mv)))
    ∧ (∀ (raw m : String) (rest : List String) (mv : Int) (sys : Option Int),
      pySplit (removeSpaces raw) = "CGS" :: m :: rest →
      pyInt m = some mv →
      systemFromArgs ("CGS" :: m :: rest) 2 = some sys →
      create_feedback_command raw =
        some (FeedbackCommand.init raw ("CGS" :: m :: rest)
          (Variant.CordlessGoingToSleep sys mv)))
    ∧ create_feedback_command "LZC,7,ON,S2" =
        some ⟨"LZC,7,ON,S2", ["LZC", "7", "ON", "S2"], "LZC",
              Variant.LocalZoneChange (some 2) 7 "ON"⟩
    ∧ create_feedback_command "!" = some ⟨"!", ["!"], "!", Variant.Prompt⟩ := by
  refine ⟨?_, ?_, ?_, ?_, ?_, ?_, ?_, ?_, ?_, by decide, by decide⟩
  · intro raw rest hsplit
    have hdc : decodeCore ("!" :: rest) = Prompt.core ("!" :: rest) :=
      decodeCore_of_head ("!" :: rest) ⟨"!", 0, Prompt.core⟩
        (by simp [FEEDBACK_CLASSES]) rfl (by simp)
    simp only [create_feedback_command, hsplit, hdc, Prompt.core]
  · intro raw z st rest zv sys hsplit hz hst hsys
    have hdc : decodeCore ("LZC" :: z :: st :: rest) =
        LocalZoneChange.core ("LZC" :: z :: st :: rest) :=
      decodeCore_of_head ("LZC" :: z :: st :: rest) ⟨"LZC", 2, LocalZoneChange.core⟩
        (by simp [FEEDBACK_CLASSES]) rfl (by simp)
    have hcore : LocalZoneChange.core ("LZC" :: z :: st :: rest) =
        some (Variant.LocalZoneChange sys zv st) := by
      simp only [LocalZoneChange.core, hsys, Option.bind_eq_bind, Option.some_bind,
                 List.get?, hz, hst]
      simp
    simp only [create_feedback_command, hsplit, hdc, hcore]
  · intro raw m b st rest mv bv sys hsplit hm hb hst hsys
    have hdc : decodeCore ("MBP" :: m :: b :: st :: rest) =
        MasterControlButtonPress.core ("MBP" :: m :: b :: st :: rest) :=
      decodeCore_of_head ("MBP" :: m :: b :: st :: rest)
        ⟨"MBP", 3, MasterControlButtonPress.core⟩
        (by simp [FEEDBACK_CLASSES]) rfl (by simp)
    have hmc := mcbf_core_eval 4 "MBP" m b (st :: rest) mv bv sys hm hb hsys
    have hcore : MasterControlButtonPress.core ("MBP" :: m :: b :: st :: rest) =
        some (Variant.MasterControlButtonPress sys mv bv st) := by
      simp only [MasterControlButtonPress.core, hmc, Option.bind_eq_bind,
                 Option.some_bind, List.get?, hst]
      simp
    simp only [create_feedback_command, hsplit, hdc, hcore]
  · intro raw m b rest mv bv sys hsplit hm hb hsys
    have hdc : decodeCore ("RBP" :: m :: b :: rest) =
        RaiseButtonPress.core ("RBP" :: m :: b :: rest) :=
      decodeCore_of_head ("RBP" :: m :: b :: rest) ⟨"RBP", 2, RaiseButtonPress.core⟩
        (by simp [FEEDBACK_CLASSES]) rfl (by simp)
    have hmc := mcbf_core_eval 3 "RBP" m b rest mv bv sys hm hb hsys
    have hcore : RaiseButtonPress.core ("RBP" :: m :: b :: rest) =
        some (Variant.RaiseButtonPress sys mv bv) := by
      simp [RaiseButtonPress.core, hmc]
    simp only [create_feedback_command, hsplit, hdc, hcore]
  · intro raw m b rest mv bv sys hsplit hm hb hsys
    have hdc : decodeCore ("RBR" :: m :: b :: rest) =
        RaiseButtonRelease.core ("RBR" :: m :: b :: rest) :=
      decodeCore_of_head ("RBR" :: m :: b :: rest) ⟨"RBR", 2, RaiseButtonRelease.core⟩
        (by simp [FEEDBACK_CLASSES]) rfl (by simp)
    have hmc := mcbf_core_eval 3 "RBR" m b rest mv bv sys hm hb hsys
    have hcore : RaiseButtonRelease.core ("RBR" :: m :: b :: rest) =
        some (Variant.RaiseButtonRelease sys mv bv) := by
      simp [RaiseButtonRelease.core, hmc]
    simp only [create_feedback_command, hsplit, hdc, hcore]
  · intro raw m b rest mv bv sys hsplit hm hb hsys
    have hdc : decodeCore ("LBP" :: m :: b :: rest) =
        LowerButtonPress.core ("LBP" :: m :: b :: rest) :=
      decodeCore_of_head ("LBP" :: m :: b :: rest) ⟨"LBP", 2, LowerButtonPress.core⟩
        (by simp [FEEDBACK_CLASSES]) rfl (by simp)
    have hmc := mcbf_core_eval 3 "LBP" m b rest mv bv sys hm hb hsys
    have hcore : LowerButtonPress.core ("LBP" :: m :: b :: rest) =
        some (Variant.LowerButtonPress sys mv bv) := by
      simp [LowerButtonPress.core, hmc]
    simp only [create_feedback_command, hsplit, hdc, hcore]
  · intro raw m b rest mv bv sys hsplit hm hb hsys
    have hdc : decodeCore ("LBR" :: m :: b :: rest) =
        LowerButtonRelease.core ("LBR" :: m :: b :: rest) :=
      decodeCore_of_head ("LBR" :: m :: b :: rest) ⟨"LBR", 2, LowerButtonRelease.core⟩
        (by simp [FEEDBACK_CLASSES]) rfl (by simp)
    have hmc := mcbf_core_eval 3 "LBR" m b rest mv bv sys hm hb hsys
    have hcore : LowerButtonRelease.core ("LBR" :: m :: b :: rest) =
        some (Variant.LowerButtonRelease sys mv bv) := by
      simp [LowerButtonRelease.core, hmc]
    simp only [create_feedback_command, hsplit, hdc, hcore]
  · intro raw m rest mv sys hsplit hm hsys
    have hdc : decodeCore ("CWU" :: m :: rest) =
        CordlessWakingUp.core ("CWU" :: m :: rest) :=
      decodeCore_of_head ("CWU" :: m :: rest) ⟨"CWU", 1, CordlessWakingUp.core⟩
        (by simp [FEEDBACK_CLASSES]) rfl (by simp)
    have hmc := mcf_core_eval 2 "CWU" m rest mv sys hm hsys
    have hcore : CordlessWakingUp.core ("CWU" :: m :: rest) =
        some (Variant.CordlessWakingUp sys mv) := by
      simp [CordlessWakingUp.core, hmc]
    simp only [create_feedback_command, hsplit, hdc, hcore]
  · intro raw m rest mv sys hsplit hm hsys
    have hdc : decodeCore ("CGS" :: m :: rest) =
        CordlessGoingToSleep.core ("CGS" :: m :: rest) :=
      decodeCore_of_head ("CGS" :: m :: rest) ⟨"CGS", 1, CordlessGoingToSleep.core⟩
        (by simp [FEEDBACK_CLASSES]) rfl (by simp)
    have hmc := mcf_core_eval 2 "CGS" m rest mv sys hm hsys
    have hcore : CordlessGoingToSleep.core ("CGS" :: m :: rest) =
        some (Variant.CordlessGoingToSleep sys mv) := by
      simp [CordlessGoingToSleep.core, hmc]
    simp only [create_feedback_command, hsplit, hdc, hcore]

/-- Witness for the general part of the C4 theorem: one concrete line
per table entry, each decoded by applying the corresponding general
conjunct. -/
theorem decode_well_formed_lines_witness :
    create_feedback_command "!,X" =
      some (FeedbackCommand.init "!,X" ["!", "X"] Variant.Prompt)
    ∧ create_feedback_command "LZC,7,ON,S2" =
      some (FeedbackCommand.init "LZC,7,ON,S2" ["LZC", "7", "ON", "S2"]
        (Variant.LocalZoneChange (some 2) 7 "ON"))
    ∧ create_feedback_command "MBP,1,2,ON,S1" =
      some (FeedbackCommand.init "MBP,1,2,ON,S1" ["MBP", "1", "2", "ON", "S1"]
        (Variant.MasterControlButtonPress (some 1) 1 2 "ON"))
    ∧ create_feedback_command "RBP,1,2" =
      some (FeedbackCommand.init "RBP,1,2" ["RBP", "1", "2"]
        (Variant.RaiseButtonPress none 1 2))
    ∧ create_feedback_command "RBR,1,2,S2" =
      some (FeedbackCommand.init "RBR,1,2,S2" ["RBR", "1", "2", "S2"]
        (Variant.RaiseButtonRelease (some 2) 1 2))
    ∧ create_feedback_command "LBP,3,4" =
      some (FeedbackCommand.init "LBP,3,4" ["LBP", "3", "4"]
        (Variant.LowerButtonPress none 3 4))
    ∧ create_feedback_command "LBR,3,4,S1" =
      some (FeedbackCommand.init "LBR,3,4,S1" ["LBR", "3", "4", "S1"]
        (Variant.LowerButtonRelease (some 1) 3 4))
    ∧ create_feedback_command "CWU,5" =
      some (FeedbackCommand.init "CWU,5" ["CWU", "5"]
        (Variant.CordlessWakingUp none 5))
    ∧ create_feedback_command "CGS,6,S2" =
      some (FeedbackCommand.init "CGS,6,S2" ["CGS", "6", "S2"]
        (Variant.CordlessGoingToSleep (some 2) 6)) :=
  ⟨decode_well_formed_lines.1 "!,X" ["X"] (by decide),
   decode_well_formed_lines.2.1 "LZC,7,ON,S2" "7" "ON" ["S2"] 7 (some 2)
     (by decide) (by decide) (Or.inl rfl) (by decide),
   decode_well_formed_lines.2.2.1 "MBP,1,2,ON,S1" "1" "2" "ON" ["S1"] 1 2 (some 1)
     (by decide) (by decide) (by decide) (Or.inl rfl) (by decide),
   decode_well_formed_lines.2.2.2.1 "RBP,1,2" "1" "2" [] 1 2 none
     (by decide) (by decide) (by decide) (by decide),
   decode_well_formed_lines.2.2.2.2.1 "RBR,1,2,S2" "1" "2" ["S2"] 1 2 (some 2)
     (by decide) (by decide) (by decide) (by decide),
   decode_well_formed_lines.2.2.2.2.2.1 "LBP,3,4" "3" "4" [] 3 4 none
     (by decide) (by decide) (by decide) (by decide),
   decode_well_formed_lines.2.2.2.2.2.2.1 "LBR,3,4,S1" "3" "4" ["S1"] 3 4 (some 1)
     (by decide) (by decide) (by decide) (by decide),
   decode_well_formed_lines.2.2.2.2.2.2.2.1 "CWU,5" "5" [] 5 none
     (by decide) (by decide) (by decide),
   decode_well_formed_lines.2.2.2.2.2.2.2.2.1 "CGS,6,S2" "6" ["S2"] 6 (some 2)
     (by decide) (by decide) (by decide)⟩

/-- Claim C5 counterexample.  The lines "!" and "!\t" differ only by an
embedded whitespace character (their whitespace-stripped forms
coincide), yet one decodes to Prompt and the other to UnknownFeedback:
the decoder removes only the space character, not all whitespace. -/
theorem whitespace_stripping_cex :
    specStripWhitespace "!\t" = specStripWhitespace "!"
    ∧ create_feedback_command "!" = some ⟨"!", ["!"], "!", Variant.Prompt⟩
    ∧ create_feedback_command "!\t" =
        some ⟨"!\t", ["!\t"], "!\t", Variant.UnknownFeedback⟩
    ∧ (Variant.Prompt ≠ Variant.UnknownFeedback) := by
  refine ⟨by decide, by decide, by decide, by decide⟩

/-- Claim C5 (amended).  The decoder removes only the space character
(str.replace(" ", "")) before splitting: two raw lines that agree after
space removal decode to the same class with the same parsed and declared
field values (only the stored raw_command differs). -/
theorem only_spaces_stripped (r1 r2 : String)
    (h : removeSpaces r1 = removeSpaces r2) :
    (create_feedback_command r1).map eraseRaw =
      (create_feedback_command r2).map eraseRaw := by
  simp only [create_feedback_command, h]
  cases decodeCore (pySplit (removeSpaces r2)) <;> rfl

/-- Witness for the amended C5 theorem: inserting spaces into
"LZC,7,ON" leaves the decoded class and fields unchanged. -/
theorem only_spaces_stripped_witness :
    (create_feedback_command "LZC, 7, ON").map eraseRaw =
      (create_feedback_command "LZC,7,ON").map eraseRaw :=
  only_spaces_stripped "LZC, 7, ON" "LZC,7,ON" (by decide)

/-- Claim C6 counterexample.  The line "LZC,7,ON,S9" carries a trailing
system field that does not match S<1|2>, yet decode succeeds (no
exception) and stores system = 9: the code checks only that the field
starts with 'S' and takes int of the single character at index 1. -/
theorem system_field_s9_accepted_cex :
    create_feedback_command "LZC,7,ON,S9" =
      some ⟨"LZC,7,ON,S9", ["LZC", "7", "ON", "S9"], "LZC",
            Variant.LocalZoneChange (some 9) 7 "ON"⟩ := by decide

/-- Claim C6 (amended).  A present trailing system field is accepted iff
it begins with literal 'S' and its second character is a decimal digit;
the system id is that digit's value, ANY digit 0-9 (not only 1 or 2),
and characters after the second are ignored.  Every other present field
raises (none = exception): a field whose first character is not 'S'
raises AssertionError, an empty field or a bare "S" raises IndexError,
and an 'S' followed by a non-digit raises ValueError.  The last conjunct
anchors this at the decoder: "LZC,7,ON,S9" decodes successfully with
system 9. -/
theorem system_field_s_digit :
    (∀ (args : List String) (idx : Nat) (c : Char) (r : List Char),
      idx < args.length → args.getD idx "" = String.mk ('S' :: c :: r) →
      c.isDigit = true →
      systemFromArgs args idx = some (some ((c.toNat - 48 : Nat) : Int)))
    ∧ (∀ (args : List String) (idx : Nat) (c : Char) (r : List Char),
      idx < args.length → args.getD idx "" = String.mk (c :: r) → c ≠ 'S' →
      systemFromArgs args idx = none)
    ∧ (∀ (args : List String) (idx : Nat),
      idx < args.length → args.getD idx "" = String.mk ['S'] →
      systemFromArgs args idx = none)
    ∧ (∀ (args : List String) (idx : Nat) (c : Char) (r : List Char),
      idx < args.length → args.getD idx "" = String.mk ('S' :: c :: r) →
      c.isDigit = false →
      systemFromArgs args idx = none)
    ∧ (∀ (args : List String) (idx : Nat),
      idx < args.length → args.getD idx "" = "" →
      systemFromArgs args idx = none)
    ∧ create_feedback_command "LZC,7,ON,S9" =
        some ⟨"LZC,7,ON,S9", ["LZC", "7", "ON", "S9"], "LZC",
              Variant.LocalZoneChange (some 9) 7 "ON"⟩ := by
  refine ⟨?_, ?_, ?_, ?_, ?_, by decide⟩
  · intro args idx c r hlt hget hdig
    unfold systemFromArgs
    rw [if_pos hlt, hget]
    simp [pyInt_single_digit hdig]
  · intro args idx c r hlt hget hne
    unfold systemFromArgs
    rw [if_pos hlt, hget]
    simp [hne]
  · intro args idx hlt hget
    unfold systemFromArgs
    rw [if_pos hlt, hget]
    rfl
  · intro args idx c r hlt hget hdig
    unfold systemFromArgs
    rw [if_pos hlt, hget]
    simp [pyInt_single_nondigit hdig]
  · intro args idx hlt hget
    unfold systemFromArgs
    rw [if_pos hlt, hget]

/-- Witness for the amended C6 theorem: the field "S9" at index 3 is
accepted with system id 9 (acceptance direction), while the fields "X2",
"S", "SX" and "" at index 3 each raise (rejection direction). -/
theorem system_field_s_digit_witness :
    systemFromArgs ["LZC", "7", "ON", "S9"] 3 =
      some (some ((('9'.toNat - 48 : Nat)) : Int))
    ∧ systemFromArgs ["LZC", "7", "ON", "X2"] 3 = none
    ∧ systemFromArgs ["LZC", "7", "ON", "S"] 3 = none
    ∧ systemFromArgs ["LZC", "7", "ON", "SX"] 3 = none
    ∧ systemFromArgs ["LZC", "7", "ON", ""] 3 = none :=
  ⟨system_field_s_digit.1 ["LZC", "7", "ON", "S9"] 3 '9' []
     (by decide) (by decide) (by decide),
   system_field_s_digit.2.1 ["LZC", "7", "ON", "X2"] 3 'X' ['2']
     (by decide) (by decide) (by decide),
   system_field_s_digit.2.2.1 ["LZC", "7", "ON", "S"] 3
     (by decide) (by decide),
   system_field_s_digit.2.2.2.1 ["LZC", "7", "ON", "SX"] 3 'X' []
     (by decide) (by decide) (by decide),
   system_field_s_digit.2.2.2.2.1 ["LZC", "7", "ON", ""] 3
     (by decide) (by decide)⟩

/-- Claim C7.  In every execution of the queue (any interleaving of
report_feedback, set_feedback_observer, worker dispatch and stop), the
sequence of feedback items delivered to callbacks is an order-preserving
subsequence of the sequence of items enqueued: the worker pops only the
head of the buffer and report_feedback appends only at the tail, so if A
is enqueued before B and both are dispatched, A's callback invocation
strictly precedes B's. -/
theorem dispatch_preserves_fifo (s : Sys) (h : Reaches initSys s) :
    List.Sublist (s.trace.map Prod.snd) s.log := by
  obtain ⟨done, hlog, htr⟩ := reaches_log_decomp h
  rw [hlog]
  exact List.Sublist.trans htr (List.sublist_append_left done s.st.queue)

/-- Witness for C7: a concrete execution that registers a wildcard
observer, enqueues two items and dispatches both; the delivery order is
the enqueue order. -/
theorem dispatch_preserves_fifo_witness :
    Reaches initSys
      ⟨⟨[], true, true, [(Tag.FeedbackCommand, 7)]⟩,
       [fbPromptEx, fbLzcEx], [(7, fbPromptEx), (7, fbLzcEx)]⟩
    ∧ List.Sublist
        (([(7, fbPromptEx), (7, fbLzcEx)] : List (Nat × FeedbackCommand)).map Prod.snd)
        [fbPromptEx, fbLzcEx] := by
  have h1 : Step initSys ⟨⟨[], true, false, [(Tag.FeedbackCommand, 7)]⟩, [], []⟩ :=
    Step.set_observer initSys none 7
  have h2 : Step ⟨⟨[], true, false, [(Tag.FeedbackCommand, 7)]⟩, [], []⟩
      ⟨⟨[fbPromptEx], true, true, [(Tag.FeedbackCommand, 7)]⟩, [fbPromptEx], []⟩ :=
    Step.report _ fbPromptEx
  have h3 : Step ⟨⟨[fbPromptEx], true, true, [(Tag.FeedbackCommand, 7)]⟩, [fbPromptEx], []⟩
      ⟨⟨[fbPromptEx, fbLzcEx], true, true, [(Tag.FeedbackCommand, 7)]⟩,
       [fbPromptEx, fbLzcEx], []⟩ :=
    Step.report _ fbLzcEx
  have h4 : Step ⟨⟨[fbPromptEx, fbLzcEx], true, true, [(Tag.FeedbackCommand, 7)]⟩,
       [fbPromptEx, fbLzcEx], []⟩
      ⟨⟨[fbLzcEx], true, true, [(Tag.FeedbackCommand, 7)]⟩,
       [fbPromptEx, fbLzcEx], [(7, fbPromptEx)]⟩ :=
    Step.dispatch_hit _ fbPromptEx [fbLzcEx] 7 rfl rfl (by decide)
  have h5 : Step ⟨⟨[fbLzcEx], true, true, [(Tag.FeedbackCommand, 7)]⟩,
       [fbPromptEx, fbLzcEx], [(7, fbPromptEx)]⟩
      ⟨⟨[], true, true, [(Tag.FeedbackCommand, 7)]⟩,
       [fbPromptEx, fbLzcEx], [(7, fbPromptEx), (7, fbLzcEx)]⟩ :=
    Step.dispatch_hit _ fbLzcEx [] 7 rfl rfl (by decide)
  have hr : Reaches initSys
      ⟨⟨[], true, true, [(Tag.FeedbackCommand, 7)]⟩,
       [fbPromptEx, fbLzcEx], [(7, fbPromptEx), (7, fbLzcEx)]⟩ :=
    Relation.ReflTransGen.tail (Relation.ReflTransGen.tail (Relation.ReflTransGen.tail
      (Relation.ReflTransGen.tail (Relation.ReflTransGen.single h1) h2) h3) h4) h5
  exact ⟨hr, dispatch_preserves_fifo _ hr⟩

/-- Claim C8.  stop() discards every buffered-but-undelivered item (the
resulting state has an empty buffer and a cleared running flag), and
once the running flag is cleared no execution ever extends the
invocation trace: the dispatch loop re-checks _continue_running under
the lock before every pop, so items buffered at stop() are never
delivered to any callback. -/
theorem stop_discards_and_dispatch_halts :
    (∀ (q q' : QueueState), FeedbackQueue.stop q = Except.ok q' →
      q'.queue = [] ∧ q'.continue_running = false)
    ∧ (∀ (s s' : Sys), s.st.continue_running = false →
      Relation.ReflTransGen Step s s' → s'.trace = s.trace) := by
  constructor
  · intro q q' h
    unfold FeedbackQueue.stop at h
    by_cases hr : q.continue_running
    · rw [if_pos hr] at h
      injection h with h2
      rw [← h2]
      exact ⟨rfl, rfl⟩
    · rw [if_neg hr] at h
      exact Except.noConfusion h
  · intro s s' hrun h
    exact (trace_frozen h hrun).1

/-- Witness for C8: stopping a queue holding one undelivered item
empties the buffer, and from a stopped state a further step (here an
enqueue) leaves the invocation trace unchanged. -/
theorem stop_discards_and_dispatch_halts_witness :
    ((⟨[], false, true, []⟩ : QueueState).queue = []
      ∧ (⟨[], false, true, []⟩ : QueueState).continue_running = false)
    ∧ (⟨⟨[fbPromptEx], false, true, []⟩, [fbPromptEx], []⟩ : Sys).trace =
        (⟨⟨[], false, true, []⟩, [], []⟩ : Sys).trace :=
  ⟨stop_discards_and_dispatch_halts.1 ⟨[fbLzcEx], true, false, []⟩
      ⟨[], false, true, []⟩ rfl,
   stop_discards_and_dispatch_halts.2 ⟨⟨[], false, true, []⟩, [], []⟩
      ⟨⟨[fbPromptEx], false, true, []⟩, [fbPromptEx], []⟩ rfl
      (Relation.ReflTransGen.single (Step.report _ fbPromptEx))⟩

/-- Claim C9 counterexample.  An explicit system id of 0 is not equal to
1 or 2, yet _send_command does not signal anything: because the guard is
the truthiness test if system:, the id 0 is treated as absent, the
system id is silently dropped and the bare command line IS written to
the transport. -/
theorem send_command_zero_cex :
    RadioRA.send_command "STOPRL" (some 0) = some "STOPRL"
    ∧ (0 : Int) ≠ 1 ∧ (0 : Int) ≠ 2 :=
  ⟨rfl, by decide, by decide⟩

/-- Claim C9 (amended).  For every explicit system id other than 0, 1
and 2, _send_command raises AssertionError before anything is written to
the transport (result none).  The id 0, however, is falsy in Python: it
is treated as if no system had been given, and the command is
transmitted without a system suffix (the id is silently dropped). -/
theorem send_command_invalid_system :
    (∀ (command : String) (sysv : Int), sysv ≠ 0 → sysv ≠ 1 → sysv ≠ 2 →
      RadioRA.send_command command (some sysv) = none)
    ∧ (∀ command : String, RadioRA.send_command command (some 0) = some command) := by
  constructor
  · intro command sysv h0 h1 h2
    simp [RadioRA.send_command, h0, h1, h2]
  · intro command
    simp [RadioRA.send_command]

/-- Witness for the amended C9 theorem at system ids 3 and 0. -/
theorem send_command_invalid_system_witness :
    RadioRA.send_command "LZCMON" (some 3) = none
    ∧ RadioRA.send_command "LZCMON" (some 0) = some "LZCMON" :=
  ⟨send_command_invalid_system.1 "LZCMON" 3 (by decide) (by decide) (by decide),
   send_command_invalid_system.2 "LZCMON"⟩

/-- Claim C10.  Dispatch selects the callback by the item's exact
concrete class: (1) registering with tag None and registering for the
FeedbackCommand base class install the same wildcard entry; (2) the
callback selected for an item is registered either exactly at the item's
class or, failing that, at the FeedbackCommand wildcard — nothing else;
(3) an observer registered for a proper superclass of an item's class
(other than the wildcard) never receives the item: registering it does
not change the item's dispatch, i.e. an observer for a class receives
only items of exactly that class, never of its subclasses. -/
theorem exact_class_dispatch :
    (∀ (f : Nat) (m : ObsTable),
      set_feedback_observer none f m =
        set_feedback_observer (some Tag.FeedbackCommand) f m)
    ∧ (∀ (t : Tag) (m : ObsTable) (f : Nat),
      lookupFeedbackFunction t m = some f →
      obsLookup t m = some f ∨
        (obsLookup t m = none ∧ obsLookup Tag.FeedbackCommand m = some f))
    ∧ (∀ (item_class observer_class : Tag) (f : Nat) (m : ObsTable),
      isSubclass item_class observer_class = true →
      item_class ≠ observer_class →
      observer_class ≠ Tag.FeedbackCommand →
      lookupFeedbackFunction item_class
          (set_feedback_observer (some observer_class) f m) =
        lookupFeedbackFunction item_class m) := by
  refine ⟨fun f m => rfl, ?_, ?_⟩
  · intro t m f h
    unfold lookupFeedbackFunction at h
    cases hob : obsLookup t m with
    | some g =>
        rw [hob] at h
        simp at h
        subst h
        exact Or.inl rfl
    | none =>
        rw [hob] at h
        simp at h
        exact Or.inr ⟨rfl, h⟩
  · intro ic oc f m _hsub hne hnf
    show lookupFeedbackFunction ic ((oc, f) :: m) = lookupFeedbackFunction ic m
    unfold lookupFeedbackFunction
    rw [obsLookup_cons_ne (Ne.symm hne) f m, obsLookup_cons_ne hnf f m]

/-- Witness for C10: registering an observer for _SystemFeedback (a
proper superclass of LocalZoneChange) does not affect the dispatch of a
LocalZoneChange item, and a selected callback comes from the exact tag
or the wildcard. -/
theorem exact_class_dispatch_witness :
    set_feedback_observer none 7 [] =
      set_feedback_observer (some Tag.FeedbackCommand) 7 []
    ∧ (obsLookup Tag.Prompt [(Tag.Prompt, 5)] = some 5 ∨
        (obsLookup Tag.Prompt [(Tag.Prompt, 5)] = none ∧
         obsLookup Tag.FeedbackCommand [(Tag.Prompt, 5)] = some 5))
    ∧ lookupFeedbackFunction Tag.LocalZoneChange
        (set_feedback_observer (some Tag.SystemFeedback) 9 []) =
      lookupFeedbackFunction Tag.LocalZoneChange [] :=
  ⟨exact_class_dispatch.1 7 [],
   exact_class_dispatch.2.1 Tag.Prompt [(Tag.Prompt, 5)] 5 rfl,
   exact_class_dispatch.2.2 Tag.LocalZoneChange Tag.SystemFeedback 9 []
     (by decide) (by decide) (by decide)⟩
